import Mathlib

/-!
Verification development for the pip-AI-MMM-test repository: a shallow
embedding of its data-preparation pipeline (column classifier, period
conversion, DMA/national aggregation, wide-to-long channel reshape,
data-quality validator, and the plotting-state discipline), with theorems
settling the specification claims against the code.

Conventions of the embedding:
* numeric cell values are exact rationals (`ℚ`); a missing value (pandas
  `NaN`) is `Option.none`;
* dataframes are a column-name list plus a row list; reading a column that
  is not in the column list models a pandas `KeyError`;
* fallible code returns `Except`.
-/

namespace MMM

/-! ### Column classifier (scripts/analyze_hcp_data.py, identify_mmm_columns)

The source scans `df.columns` once per role and appends every column whose
lower-cased name contains one of the role's keywords, which is exactly
`List.filter` with a substring test. -/

/-- `kw in col.lower()` of the source: case-insensitive substring test. -/
def keywordIn (kw : String) (col : String) : Bool :=
  decide (kw.toList <:+: col.toLower.toList)

def dateKeywords : List String := ["date", "time", "period", "month", "year"]
def spendKeywords : List String := ["spend", "cost", "budget", "investment", "marketing"]
def channelKeywords : List String := ["channel", "media", "platform", "campaign", "touchpoint"]
def geographicKeywords : List String := ["region", "state", "city", "territory", "geography"]
def businessKeywords : List String := ["revenue", "sales", "prescription", "volume", "conversion"]
def hcpKeywords : List String := ["hcp", "doctor", "physician", "id", "name"]

/-- The role-to-columns mapping returned by `identify_mmm_columns`. -/
structure MMMColumns where
  date_columns : List String
  spend_columns : List String
  channel_columns : List String
  geographic_columns : List String
  business_metrics : List String
  hcp_identifiers : List String
deriving DecidableEq

/-- `identify_mmm_columns` of scripts/analyze_hcp_data.py: each role list is
the input column list filtered by that role's keyword set. -/
def identify_mmm_columns (cols : List String) : MMMColumns where
  date_columns := cols.filter (fun c => dateKeywords.any (fun k => keywordIn k c))
  spend_columns := cols.filter (fun c => spendKeywords.any (fun k => keywordIn k c))
  channel_columns := cols.filter (fun c => channelKeywords.any (fun k => keywordIn k c))
  geographic_columns := cols.filter (fun c => geographicKeywords.any (fun k => keywordIn k c))
  business_metrics := cols.filter (fun c => businessKeywords.any (fun k => keywordIn k c))
  hcp_identifiers := cols.filter (fun c => hcpKeywords.any (fun k => keywordIn k c))

/-! ### Period conversion (scripts/run_data_transformation.py, transform_month_to_date)

`pd.to_datetime(df['month'], format='%Y%m')` stringifies each integer and
parses it with the strptime pattern for `%Y%m`: `%Y` matches exactly four
digits, `%m` matches `1[0-2] | 0[1-9] | [1-9]` (one or two digits), the whole
string must be consumed, and the resulting first-of-month date must fit the
nanosecond-resolution timestamp range 1677-09-21 .. 2262-04-11. -/

/-- Decimal digits of `n`, most significant first (the digits of Python
`str(n)` for `n ≥ 0`).  Fuel-indexed so that it is structural recursion and
thus kernel-reducible; the fuel `n + 1` always suffices. -/
def decDigitsAux : Nat → Nat → List Nat
  | 0, _ => []
  | _ + 1, n => if n < 10 then [n] else decDigitsAux n (n / 10) ++ [n % 10]

def decDigits (n : Nat) : List Nat := decDigitsAux (n + 1) n

/-- The strptime `%m` directive: alternatives `1[0-2]`, `0[1-9]`, `[1-9]`
tried in that order, returning the month value and the unconsumed digits. -/
def parseMonth : List Nat → Option (Nat × List Nat)
  | a :: b :: rest =>
    if a = 1 ∧ b ≤ 2 then some (10 * a + b, rest)
    else if a = 0 ∧ 1 ≤ b then some (b, rest)
    else if 1 ≤ a ∧ a ≤ 9 then some (a, b :: rest)
    else none
  | [a] => if 1 ≤ a ∧ a ≤ 9 then some (a, []) else none
  | [] => none

/-- strptime with format `%Y%m` on a digit string: four digits of year, then
`%m`, then the input must be exhausted. -/
def strptimeYYYYMM (ds : List Nat) : Except String (Nat × Nat) :=
  match ds with
  | d1 :: d2 :: d3 :: d4 :: rest =>
    match parseMonth rest with
    | some (m, []) => .ok (((d1 * 10 + d2) * 10 + d3) * 10 + d4, m)
    | some (_, _ :: _) => .error "unconverted data remains"
    | none => .error "time data does not match format"
  | _ => .error "time data does not match format"

/-- Whether the first of month `(y, m)` fits in a nanosecond-resolution
timestamp (min 1677-09-21, max 2262-04-11). -/
def inTimestampBounds (y m : Nat) : Bool :=
  decide ((1677 < y ∨ (y = 1677 ∧ 10 ≤ m)) ∧ (y < 2262 ∨ (y = 2262 ∧ m ≤ 4)))

/-- `transform_month_to_date` applied to one cell of the month column:
`pd.to_datetime(value, format='%Y%m')`, yielding the (year, month) of the
resulting first-of-month date.  A negative integer stringifies with a minus
sign, which the digit-only pattern rejects. -/
def transform_month_to_date (n : Int) : Except String (Nat × Nat) :=
  if n < 0 then .error "time data does not match format"
  else
    match strptimeYYYYMM (decDigits n.toNat) with
    | .error e => .error e
    | .ok (y, m) =>
      if inTimestampBounds y m then .ok (y, m)
      else .error "out of bounds nanosecond timestamp"

/-! ### Aggregator (scripts/run_data_transformation.py)

`create_dma_aggregation` / `create_national_aggregation` run
`df.groupby(keys).agg(agg_dict)` with a hard-coded dictionary of sixteen
summed raw columns plus `'HCP_ID': 'nunique'`, rename the results to
canonical snake-case names, and `create_channel_level_data` explodes the wide
rows into one long row per configured channel.

In the embedding a raw HCP row carries the group keys (`DMA_Code`, the
`date` produced from the month column by `transform_month_to_date`, and
`HCP_ID`, all assumed non-null as in the repository's data) and a cell
lookup for the numeric columns; the table records which numeric columns are
present, and `groupby(...).agg` raises a `KeyError` when a column of the
aggregation dictionary is absent.  A group sum skips nulls (pandas
`groupby(...).sum()` with the default `min_count=0`), and `nunique` counts
distinct identifiers.  Pandas additionally sorts the group keys; the keys
here appear in first-occurrence order, which no claim depends on. -/

/-- One raw HCP-level row after the month-to-date conversion. -/
structure HcpRow where
  dma : String
  hcp : String
  date : Nat × Nat
  cell : String → Option ℚ

/-- A raw HCP-level table: the numeric columns present, and the rows. -/
structure HcpTable where
  cols : List String
  rows : List HcpRow

/-- The sixteen summed columns of the hard-coded aggregation dictionary, in
source order. -/
def aggRawCols : List String :=
  ["SPEND_display_hcp", "SPEND_display_dtc", "COST_paidsearch_hcp_google",
   "Total_meetings", "TeleDetails", "total emails",
   "IMPRESSIONS_display_hcp", "IMPRESSIONS_display_dtc",
   "IMPRESSIONS_paidsearch_hcp_google",
   "CLICKS_display_hcp", "CLICKS_display_dtc", "CLICKS_paidsearch_hcp_google",
   "TRX", "NRX", "PDE", "ZELAPAR-SELEGILINE_trx"]

/-- Group sum of one raw column: nulls count as 0, an empty group sums to 0
(pandas `groupby(...).sum()` semantics). -/
def sumColRaw (rows : List HcpRow) (c : String) : ℚ :=
  (rows.map (fun r => (r.cell c).getD 0)).sum

/-- First-occurrence deduplication: the distinct values of a list in order of
first appearance (the group keys of a `groupby`, up to pandas' sorting). -/
def dedupFirst {α : Type} [DecidableEq α] : List α → List α
  | [] => []
  | a :: l => a :: (dedupFirst l).filter (fun x => x ≠ a)

/-- Boolean list membership, used to phrase group-partition sums. -/
def memB {α : Type} [DecidableEq α] (x : α) : List α → Bool
  | [] => false
  | a :: l => if x = a then true else memB x l

/-- `'HCP_ID': 'nunique'`: the number of distinct identifiers in a group. -/
def nuniqueHcp (rows : List HcpRow) : Nat :=
  (dedupFirst (rows.map (fun r => r.hcp))).length

/-- One wide DMA-level aggregated row, with the renamed canonical columns. -/
structure AggRow where
  dma : String
  date : Nat × Nat
  spend_display_hcp : ℚ
  spend_display_dtc : ℚ
  spend_paidsearch_hcp : ℚ
  spend_meetings : ℚ
  spend_teledetails : ℚ
  spend_emails : ℚ
  impressions_display_hcp : ℚ
  impressions_display_dtc : ℚ
  impressions_paidsearch_hcp : ℚ
  clicks_display_hcp : ℚ
  clicks_display_dtc : ℚ
  clicks_paidsearch_hcp : ℚ
  trx : ℚ
  nrx : ℚ
  pde : ℚ
  zelapar_selegiline_trx : ℚ
  unique_hcps : Nat
deriving DecidableEq

/-- One wide national-level aggregated row (no geography key). -/
structure NationalAggRow where
  date : Nat × Nat
  spend_display_hcp : ℚ
  spend_display_dtc : ℚ
  spend_paidsearch_hcp : ℚ
  spend_meetings : ℚ
  spend_teledetails : ℚ
  spend_emails : ℚ
  impressions_display_hcp : ℚ
  impressions_display_dtc : ℚ
  impressions_paidsearch_hcp : ℚ
  clicks_display_hcp : ℚ
  clicks_display_dtc : ℚ
  clicks_paidsearch_hcp : ℚ
  trx : ℚ
  nrx : ℚ
  pde : ℚ
  zelapar_selegiline_trx : ℚ
  unique_hcps : Nat
deriving DecidableEq

/-- The sixteen summed output columns, under their renamed names. -/
inductive SumCol
  | spendDisplayHcp | spendDisplayDtc | spendPaidsearchHcp
  | spendMeetings | spendTeledetails | spendEmails
  | impressionsDisplayHcp | impressionsDisplayDtc | impressionsPaidsearchHcp
  | clicksDisplayHcp | clicksDisplayDtc | clicksPaidsearchHcp
  | trx | nrx | pde | zelaparSelegilineTrx
deriving DecidableEq

/-- The raw source column each summed output column is the sum of. -/
def rawName : SumCol → String
  | .spendDisplayHcp => "SPEND_display_hcp"
  | .spendDisplayDtc => "SPEND_display_dtc"
  | .spendPaidsearchHcp => "COST_paidsearch_hcp_google"
  | .spendMeetings => "Total_meetings"
  | .spendTeledetails => "TeleDetails"
  | .spendEmails => "total emails"
  | .impressionsDisplayHcp => "IMPRESSIONS_display_hcp"
  | .impressionsDisplayDtc => "IMPRESSIONS_display_dtc"
  | .impressionsPaidsearchHcp => "IMPRESSIONS_paidsearch_hcp_google"
  | .clicksDisplayHcp => "CLICKS_display_hcp"
  | .clicksDisplayDtc => "CLICKS_display_dtc"
  | .clicksPaidsearchHcp => "CLICKS_paidsearch_hcp_google"
  | .trx => "TRX"
  | .nrx => "NRX"
  | .pde => "PDE"
  | .zelaparSelegilineTrx => "ZELAPAR-SELEGILINE_trx"

def AggRow.col (r : AggRow) : SumCol → ℚ
  | .spendDisplayHcp => r.spend_display_hcp
  | .spendDisplayDtc => r.spend_display_dtc
  | .spendPaidsearchHcp => r.spend_paidsearch_hcp
  | .spendMeetings => r.spend_meetings
  | .spendTeledetails => r.spend_teledetails
  | .spendEmails => r.spend_emails
  | .impressionsDisplayHcp => r.impressions_display_hcp
  | .impressionsDisplayDtc => r.impressions_display_dtc
  | .impressionsPaidsearchHcp => r.impressions_paidsearch_hcp
  | .clicksDisplayHcp => r.clicks_display_hcp
  | .clicksDisplayDtc => r.clicks_display_dtc
  | .clicksPaidsearchHcp => r.clicks_paidsearch_hcp
  | .trx => r.trx
  | .nrx => r.nrx
  | .pde => r.pde
  | .zelaparSelegilineTrx => r.zelapar_selegiline_trx

def NationalAggRow.col (r : NationalAggRow) : SumCol → ℚ
  | .spendDisplayHcp => r.spend_display_hcp
  | .spendDisplayDtc => r.spend_display_dtc
  | .spendPaidsearchHcp => r.spend_paidsearch_hcp
  | .spendMeetings => r.spend_meetings
  | .spendTeledetails => r.spend_teledetails
  | .spendEmails => r.spend_emails
  | .impressionsDisplayHcp => r.impressions_display_hcp
  | .impressionsDisplayDtc => r.impressions_display_dtc
  | .impressionsPaidsearchHcp => r.impressions_paidsearch_hcp
  | .clicksDisplayHcp => r.clicks_display_hcp
  | .clicksDisplayDtc => r.clicks_display_dtc
  | .clicksPaidsearchHcp => r.clicks_paidsearch_hcp
  | .trx => r.trx
  | .nrx => r.nrx
  | .pde => r.pde
  | .zelaparSelegilineTrx => r.zelapar_selegiline_trx

/-- The wide row built for one `(DMA_Code, date)` group. -/
def mkAggRow (g : String) (p : Nat × Nat) (grp : List HcpRow) : AggRow where
  dma := g
  date := p
  spend_display_hcp := sumColRaw grp "SPEND_display_hcp"
  spend_display_dtc := sumColRaw grp "SPEND_display_dtc"
  spend_paidsearch_hcp := sumColRaw grp "COST_paidsearch_hcp_google"
  spend_meetings := sumColRaw grp "Total_meetings"
  spend_teledetails := sumColRaw grp "TeleDetails"
  spend_emails := sumColRaw grp "total emails"
  impressions_display_hcp := sumColRaw grp "IMPRESSIONS_display_hcp"
  impressions_display_dtc := sumColRaw grp "IMPRESSIONS_display_dtc"
  impressions_paidsearch_hcp := sumColRaw grp "IMPRESSIONS_paidsearch_hcp_google"
  clicks_display_hcp := sumColRaw grp "CLICKS_display_hcp"
  clicks_display_dtc := sumColRaw grp "CLICKS_display_dtc"
  clicks_paidsearch_hcp := sumColRaw grp "CLICKS_paidsearch_hcp_google"
  trx := sumColRaw grp "TRX"
  nrx := sumColRaw grp "NRX"
  pde := sumColRaw grp "PDE"
  zelapar_selegiline_trx := sumColRaw grp "ZELAPAR-SELEGILINE_trx"
  unique_hcps := nuniqueHcp grp

/-- The wide row built for one `date` group at national level. -/
def mkNationalAggRow (p : Nat × Nat) (grp : List HcpRow) : NationalAggRow where
  date := p
  spend_display_hcp := sumColRaw grp "SPEND_display_hcp"
  spend_display_dtc := sumColRaw grp "SPEND_display_dtc"
  spend_paidsearch_hcp := sumColRaw grp "COST_paidsearch_hcp_google"
  spend_meetings := sumColRaw grp "Total_meetings"
  spend_teledetails := sumColRaw grp "TeleDetails"
  spend_emails := sumColRaw grp "total emails"
  impressions_display_hcp := sumColRaw grp "IMPRESSIONS_display_hcp"
  impressions_display_dtc := sumColRaw grp "IMPRESSIONS_display_dtc"
  impressions_paidsearch_hcp := sumColRaw grp "IMPRESSIONS_paidsearch_hcp_google"
  clicks_display_hcp := sumColRaw grp "CLICKS_display_hcp"
  clicks_display_dtc := sumColRaw grp "CLICKS_display_dtc"
  clicks_paidsearch_hcp := sumColRaw grp "CLICKS_paidsearch_hcp_google"
  trx := sumColRaw grp "TRX"
  nrx := sumColRaw grp "NRX"
  pde := sumColRaw grp "PDE"
  zelapar_selegiline_trx := sumColRaw grp "ZELAPAR-SELEGILINE_trx"
  unique_hcps := nuniqueHcp grp

/-- The `['DMA_Code', 'date']` group key of the DMA-level groupby. -/
def pairKey (r : HcpRow) : String × (Nat × Nat) := (r.dma, r.date)

/-- The `'date'` group key of the national-level groupby. -/
def dateKey (r : HcpRow) : Nat × Nat := r.date

/-- `create_dma_aggregation`: `df.groupby(['DMA_Code', 'date']).agg(agg_dict)`
followed by the renaming.  A column of the aggregation dictionary missing
from the frame makes pandas raise a `KeyError`. -/
def create_dma_aggregation (t : HcpTable) : Except String (List AggRow) :=
  if aggRawCols.all (fun c => decide (c ∈ t.cols)) then
    .ok ((dedupFirst (t.rows.map pairKey)).map
      (fun k => mkAggRow k.1 k.2 (t.rows.filter (fun r => decide (pairKey r = k)))))
  else .error "KeyError: missing aggregation column"

/-- `create_national_aggregation`: `df.groupby('date').agg(agg_dict)` followed
by the renaming. -/
def create_national_aggregation (t : HcpTable) : Except String (List NationalAggRow) :=
  if aggRawCols.all (fun c => decide (c ∈ t.cols)) then
    .ok ((dedupFirst (t.rows.map dateKey)).map
      (fun p => mkNationalAggRow p (t.rows.filter (fun r => decide (dateKey r = p)))))
  else .error "KeyError: missing aggregation column"

/-! ### Wide-to-long reshape (`create_channel_level_data`) -/

/-- The configured channel list of `create_channel_level_data`, in order. -/
inductive Channel
  | display_hcp | display_dtc | paidsearch_hcp | meetings | teledetails | emails
deriving DecidableEq

def channels : List Channel :=
  [.display_hcp, .display_dtc, .paidsearch_hcp, .meetings, .teledetails, .emails]

/-- `row[f'spend_{channel}']`: every channel has a spend column in the wide
schema. -/
def AggRow.spendOf (r : AggRow) : Channel → ℚ
  | .display_hcp => r.spend_display_hcp
  | .display_dtc => r.spend_display_dtc
  | .paidsearch_hcp => r.spend_paidsearch_hcp
  | .meetings => r.spend_meetings
  | .teledetails => r.spend_teledetails
  | .emails => r.spend_emails

/-- `row.get(f'impressions_{channel}', 0)`: only the three display/search
channels have an impressions column in the wide schema; the rest default
to 0. -/
def AggRow.imprOf (r : AggRow) : Channel → ℚ
  | .display_hcp => r.impressions_display_hcp
  | .display_dtc => r.impressions_display_dtc
  | .paidsearch_hcp => r.impressions_paidsearch_hcp
  | .meetings => 0
  | .teledetails => 0
  | .emails => 0

/-- `row.get(f'clicks_{channel}', 0)`. -/
def AggRow.clicksOf (r : AggRow) : Channel → ℚ
  | .display_hcp => r.clicks_display_hcp
  | .display_dtc => r.clicks_display_dtc
  | .paidsearch_hcp => r.clicks_paidsearch_hcp
  | .meetings => 0
  | .teledetails => 0
  | .emails => 0

/-- One long-form DMA-level channel row. -/
structure ChannelRow where
  date : Nat × Nat
  dma : String
  channel : Channel
  spend : ℚ
  impressions : ℚ
  clicks : ℚ
deriving DecidableEq

/-- The DMA half of `create_channel_level_data`: for each wide row, one long
row per configured channel. -/
def create_channel_level_dma (dmaAgg : List AggRow) : List ChannelRow :=
  dmaAgg.flatMap (fun row => channels.map (fun c =>
    { date := row.date, dma := row.dma, channel := c,
      spend := row.spendOf c, impressions := row.imprOf c,
      clicks := row.clicksOf c }))

/-! ### Validator (src/pip_ai_mmm_test/data/loaders.py, validate_data_quality)

The validator sees a generic frame: a column list, the set of columns whose
dtype is a datetime type, and rows of cells.  Cell payloads are abstracted to
integers — only nullness and whole-row equality matter to the rules.  The
per-column missing percentage is `nulls / len(df) * 100`; on a zero-row
frame pandas produces `0 / 0 = NaN`, modelled as `none`, and `NaN > 10` is
false, exactly like the `none` branch of `pctGt10`.  (Pandas computes the
percentage in binary floating point; the rationals here are exact, which
agrees with the float comparison away from the 10% boundary, and every
concrete instance below stays away from it.) -/

/-- A frame as the validator sees it. -/
structure VTable where
  cols : List String
  datetimeCols : List String
  rows : List (List (Option Int))

/-- `df.isnull().sum()` for the `i`-th column. -/
def nullCount (t : VTable) (i : Nat) : Nat :=
  t.rows.countP (fun r => (r.getD i none).isNone)

/-- `df.isnull().sum() / len(df) * 100` for the `i`-th column; `none` is the
`NaN` produced on a zero-row frame. -/
def missingPct (t : VTable) (i : Nat) : Option ℚ :=
  if t.rows.length = 0 then none
  else some ((nullCount t i : ℚ) / (t.rows.length : ℚ) * 100)

/-- `missing_pct > 10`, with `NaN > 10` false. -/
def pctGt10 : Option ℚ → Bool
  | none => false
  | some q => decide (10 < q)

/-- The columns with more than 10% missing values, in column order. -/
def highMissingCols (t : VTable) : List String :=
  (t.cols.enum.filter (fun p => pctGt10 (missingPct t p.1))).map (fun p => p.2)

/-- `df.duplicated().sum()`: the number of rows equal to an earlier row. -/
def duplicateCount (t : VTable) : Nat :=
  t.rows.length - (dedupFirst t.rows).length

/-- The issue entries of the validation report (the human-readable strings of
the source, as structured values). -/
inductive Issue
  | missingColumns (cols : List String)
  | dateNotDatetime (c : String)
  | highMissing (cols : List String)
  | duplicateRows (n : Nat)
deriving DecidableEq

/-- The validation report: verdict, ordered issues, and summary fields. -/
structure ValidationResult where
  is_valid : Bool
  issues : List Issue
  shape : Nat × Nat
  duplicates : Nat
deriving DecidableEq

/-- `validate_data_quality`: the four rules append issues in order; the flag
starts true, is cleared by a missing required column, and is cleared again at
the end whenever the issues list is non-empty (loaders.py lines 182-183). -/
def validate_data_quality (t : VTable) (required : List String)
    (dateColumn : String) : ValidationResult :=
  let missing := required.filter (fun c => decide (c ∉ t.cols))
  let valid1 := missing.isEmpty
  let issues1 : List Issue :=
    if missing.isEmpty then [] else [.missingColumns missing]
  let issues2 := issues1 ++
    (if dateColumn ∈ t.cols ∧ dateColumn ∉ t.datetimeCols
     then [.dateNotDatetime dateColumn] else [])
  let hm := highMissingCols t
  let issues3 := issues2 ++ (if hm.isEmpty then [] else [.highMissing hm])
  let dups := duplicateCount t
  let issues4 := issues3 ++ (if dups > 0 then [.duplicateRows dups] else [])
  { is_valid := if issues4.isEmpty then valid1 else false
    issues := issues4
    shape := (t.rows.length, t.cols.length)
    duplicates := dups }

/-! ### Plotting and the global rendering context

The matplotlib global context is modelled by the parameters the repository
touches: the style sheet installed by `plt.style.use`, the font family, and
the xkcd sketch parameters.  `plt.xkcd()` called as a statement overlays the
font and sketch settings persistently; `plt.rcdefaults()` resets everything
to the library defaults; `with plt.xkcd():` (eda.py) saves the context,
overlays it for the body, and restores the saved context on exit whether the
body returns or raises. -/

/-- The global rendering context. -/
structure RC where
  styleSheet : String
  fontFamily : String
  sketchOn : Bool
deriving DecidableEq

/-- The state `plt.rcdefaults()` resets to. -/
def rcDefaults : RC := { styleSheet := "default", fontFamily := "sans-serif", sketchOn := false }

/-- The overlay applied by `plt.xkcd()`. -/
def applyXkcd (rc : RC) : RC := { rc with fontFamily := "xkcd", sketchOn := true }

/-- Exceptions raised by the plotting layer. -/
inductive PyErr
  | keyError (col : String)
  | indexError
deriving DecidableEq

/-- A produced chart object, identified by its title. -/
structure Fig where
  title : String
deriving DecidableEq

/-- A cell value of a plotted frame: a string or a number. -/
inductive Val
  | str (s : String)
  | num (q : ℚ)
deriving DecidableEq

/-- A row of a plotted frame. -/
structure DRow where
  cells : String → Option Val

/-- A frame handed to the plotting layer: reading a column not in `cols`
raises a `KeyError`. -/
structure DTable where
  cols : List String
  rows : List DRow

/-- `df[col].max()` over the numeric cells of a column; `none` models the
`NaN` maximum of an empty or all-null column. -/
def colMaxQ (t : DTable) (c : String) : Option ℚ :=
  t.rows.foldl
    (fun acc r =>
      match r.cells c with
      | some (.num q) => some (match acc with | none => q | some a => max a q)
      | _ => acc)
    none

/-- The xkcd-branch plot loop of `plot_time_series` (eda.py): per value
column it reads `df[date_col]` and `df[col]` (a missing column raises
`KeyError`), then annotates the peak with
`df[df[col] == df[col].max()][date_col].iloc[0]`, which raises `IndexError`
when the maximum is `NaN` (empty frame or no numeric cell) since `NaN == x`
is always false. -/
def plotColsXkcd (t : DTable) (dateCol : String) : List String → Except PyErr Unit
  | [] => .ok ()
  | c :: rest =>
    if dateCol ∉ t.cols then .error (.keyError dateCol)
    else if c ∉ t.cols then .error (.keyError c)
    else if colMaxQ t c = none then .error .indexError
    else plotColsXkcd t dateCol rest

/-- The plain-branch plot loop of `plot_time_series`: no peak annotation, so
only missing columns raise. -/
def plotColsPlain (t : DTable) (dateCol : String) : List String → Except PyErr Unit
  | [] => .ok ()
  | c :: rest =>
    if dateCol ∉ t.cols then .error (.keyError dateCol)
    else if c ∉ t.cols then .error (.keyError c)
    else plotColsPlain t dateCol rest

/-- `plot_time_series` (eda.py): with `xkcd_style` the whole draw happens
inside `with plt.xkcd():`, whose exit handler restores the saved context on
success and on exception alike; without it the context is untouched.  The
body never reads the context, so only the save/overlay/restore discipline is
observable.  Returns the produced figure (or the propagated exception) and
the final context. -/
def plot_time_series (t : DTable) (dateCol : String) (valueCols : List String)
    (title : String) (xkcd_style : Bool) (st : RC) : Except PyErr Fig × RC :=
  if xkcd_style then
    match plotColsXkcd t dateCol valueCols with
    | .error e => (.error e, st)
    | .ok _ => (.ok { title := title }, st)
  else
    match plotColsPlain t dateCol valueCols with
    | .error e => (.error e, st)
    | .ok _ => (.ok { title := title }, st)

/-- `create_time_series_plot` (scripts/eda_dashboard.py): returns `None` for
absent, empty, or non-matching data; otherwise it calls
`enable_xkcd_style()` (a persistent `plt.xkcd()`), draws — where a missing
`month` or channel column raises a `KeyError`, skipping the disable — and on
success calls `disable_xkcd_style()`, i.e. `plt.rcdefaults()`. -/
def create_time_series_plot (data : Option DTable) (channel dma : String)
    (xkcd_style : Bool) (st : RC) : Except PyErr (Option Fig) × RC :=
  match data with
  | none => (.ok none, st)
  | some t =>
    if t.rows.isEmpty then (.ok none, st)
    else if "dma" ∉ t.cols then (.error (.keyError "dma"), st)
    else
      let plotRows := t.rows.filter (fun r => decide (r.cells "dma" = some (.str dma)))
      if plotRows.isEmpty then (.ok none, st)
      else
        let st1 := if xkcd_style then applyXkcd st else st
        if "month" ∉ t.cols then (.error (.keyError "month"), st1)
        else if channel ∉ t.cols then (.error (.keyError channel), st1)
        else
          let st2 := if xkcd_style then rcDefaults else st1
          (.ok (some { title := channel ++ " Spend Over Time - " ++
            (if dma = "National" then "National" else "DMA: " ++ dma) }), st2)

/-! ### Concrete instances used by counterexamples and witnesses -/

/-- Every numeric column of the aggregation dictionary, cell payloads all 7,
one HCP appearing in two different DMAs in the same period. -/
def t2row1 : HcpRow := { dma := "501", hcp := "H1", date := (2023, 1), cell := fun _ => some 7 }

def t2row2 : HcpRow := { dma := "502", hcp := "H1", date := (2023, 1), cell := fun _ => some 7 }

def t2 : HcpTable := { cols := aggRawCols, rows := [t2row1, t2row2] }

def d2 : List AggRow :=
  [mkAggRow "501" (2023, 1) [t2row1], mkAggRow "502" (2023, 1) [t2row2]]

def n2 : List NationalAggRow := [mkNationalAggRow (2023, 1) [t2row1, t2row2]]

/-- A table whose `COST_paidsearch_hcp_google` column is entirely absent. -/
def t3 : HcpTable :=
  { cols := aggRawCols.filter (fun c => decide (c ≠ "COST_paidsearch_hcp_google")),
    rows := [{ dma := "501", hcp := "H1", date := (2023, 1), cell := fun _ => some 0 }] }

/-- The spec's aggregation scenario with a null in a configured spend column. -/
def t9 : HcpTable :=
  { cols := aggRawCols,
    rows :=
      [{ dma := "501", hcp := "H1", date := (2023, 1),
         cell := fun c => if c = "SPEND_display_hcp" then none else some 5 },
       { dma := "501", hcp := "H2", date := (2023, 1),
         cell := fun c => if c = "SPEND_display_hcp" then some 50 else some 3 }] }

def d9 : List AggRow := [mkAggRow "501" (2023, 1) t9.rows]

/-- A wide aggregated row with empty group (all sums 0), for the zero-fill
witness. -/
def w0 : AggRow := mkAggRow "501" (2023, 1) []

/-- The long-form meetings row produced from `w0`. -/
def w0MeetingsRow : ChannelRow :=
  { date := (2023, 1), dma := "501", channel := .meetings,
    spend := 0, impressions := 0, clicks := 0 }

/-- The rendering context after eda.py's module-level
`plt.style.use('seaborn-v0_8')` and `rcParams['font.family'] = 'xkcd'`. -/
def rcSeaborn : RC := { styleSheet := "seaborn-v0_8", fontFamily := "xkcd", sketchOn := false }

/-- A one-row dashboard frame with `dma`, `month` and one spend column. -/
def t6 : DTable :=
  { cols := ["dma", "month", "spend_display_hcp"],
    rows := [{ cells := fun c =>
        if c = "dma" then some (.str "501")
        else if c = "month" then some (.str "2023-01")
        else some (.num 100) }] }

/-- A frame with columns but no rows. -/
def t7e : DTable := { cols := ["date", "spend"], rows := [] }

/-- A frame with all required columns and one fully duplicated row, so that
only advisory rules fire. -/
def tdup : VTable := { cols := ["a"], datetimeCols := [], rows := [[some 1], [some 1]] }

/-- An empty frame for the validator totality claim. -/
def tempty : VTable := { cols := ["date", "spend"], datetimeCols := ["date"], rows := [] }

/-! ### Helper lemmas -/

theorem mem_dedupFirst {α : Type} [DecidableEq α] {x : α} :
    ∀ {l : List α}, x ∈ dedupFirst l ↔ x ∈ l
  | [] => Iff.rfl
  | a :: l => by
    by_cases hx : x = a
    · subst hx; simp [dedupFirst]
    · simp [dedupFirst, List.mem_filter, hx, mem_dedupFirst (l := l)]

theorem nodup_dedupFirst {α : Type} [DecidableEq α] :
    ∀ (l : List α), (dedupFirst l).Nodup
  | [] => List.nodup_nil
  | a :: l => by
    refine List.Nodup.cons ?_ ((nodup_dedupFirst l).filter _)
    intro ha
    rcases List.mem_filter.1 ha with ⟨-, hne⟩
    simp at hne

/-- Filtering commutes with mapping. -/
theorem filter_map_comm {α β : Type} (f : α → β) (p : β → Bool) :
    ∀ (l : List α), (l.map f).filter p = (l.filter (fun a => p (f a))).map f
  | [] => rfl
  | a :: l => by
    by_cases h : p (f a) <;>
      simp [List.filter_cons, h, filter_map_comm f p l]

/-- Sums over filters by two mutually exclusive predicates add up. -/
theorem sum_filter_or {ρ : Type} (p q : ρ → Bool) (f : ρ → ℚ)
    (hpq : ∀ r, ¬(p r = true ∧ q r = true)) :
    ∀ (l : List ρ),
      ((l.filter (fun r => p r || q r)).map f).sum
        = ((l.filter p).map f).sum + ((l.filter q).map f).sum
  | [] => by simp
  | a :: l => by
    have ih := sum_filter_or p q f hpq l
    by_cases hp : p a = true
    · have hq : ¬ q a = true := fun hq => hpq a ⟨hp, hq⟩
      simp [List.filter_cons, hp, hq, ih]; ring
    · by_cases hq : q a = true
      · simp [List.filter_cons, hp, hq, ih]; ring
      · simp [List.filter_cons, hp, hq, ih]

theorem memB_iff {α : Type} [DecidableEq α] (x : α) :
    ∀ (l : List α), memB x l = true ↔ x ∈ l
  | [] => by simp [memB]
  | a :: l => by
    by_cases h : x = a <;> simp [memB, h, memB_iff x l]

/-- Summing a per-group aggregate over a duplicate-free list of group keys
equals summing over all rows whose key is listed. -/
theorem sum_groups {ρ κ : Type} [DecidableEq κ] (k : ρ → κ) (f : ρ → ℚ)
    (l : List ρ) :
    ∀ (G : List κ), G.Nodup →
      (G.map (fun g => ((l.filter (fun r => decide (k r = g))).map f).sum)).sum
        = ((l.filter (fun r => memB (k r) G)).map f).sum
  | [], _ => by simp [memB]
  | g :: G, hG => by
    have hg : g ∉ G := (List.nodup_cons.1 hG).1
    have ih := sum_groups k f l G (List.nodup_cons.1 hG).2
    have hsplit : l.filter (fun r => memB (k r) (g :: G))
        = l.filter (fun r => decide (k r = g) || memB (k r) G) := by
      refine List.filter_congr fun r _ => ?_
      by_cases h1 : k r = g <;> simp [memB, h1]
    have hdisj : ∀ r, ¬(decide (k r = g) = true ∧ memB (k r) G = true) := by
      intro r ⟨h1, h2⟩
      exact hg ((of_decide_eq_true h1) ▸ (memB_iff (k r) G).1 h2)
    rw [List.map_cons, List.sum_cons, ih, hsplit,
      sum_filter_or _ _ f hdisj l]

/-- In a duplicate-free list, filtering for one value yields that value or
nothing. -/
theorem filter_eq_singleton_of_nodup {κ : Type} [DecidableEq κ] (k0 : κ) :
    ∀ (G : List κ), G.Nodup →
      G.filter (fun k => decide (k = k0)) = if k0 ∈ G then [k0] else []
  | [], _ => by simp
  | g :: G, hG => by
    have hg : g ∉ G := (List.nodup_cons.1 hG).1
    have ih := filter_eq_singleton_of_nodup k0 G (List.nodup_cons.1 hG).2
    by_cases hgk : g = k0
    · subst hgk
      simp [List.filter_cons, ih, if_neg hg]
    · simp [List.filter_cons, hgk, ih, Ne.symm hgk]

/-- A null-skipping group sum is the sum of the non-null values. -/
theorem sumColRaw_eq_filterMap (c : String) :
    ∀ (rows : List HcpRow),
      sumColRaw rows c = (rows.filterMap (fun r => r.cell c)).sum
  | [] => rfl
  | r :: rows => by
    have ih := sumColRaw_eq_filterMap c rows
    simp only [sumColRaw] at ih ⊢
    cases h : r.cell c <;> simp [List.filterMap_cons, h, ih]

theorem col_mkAggRow (g : String) (p : Nat × Nat) (grp : List HcpRow)
    (c : SumCol) : (mkAggRow g p grp).col c = sumColRaw grp (rawName c) := by
  cases c <;> rfl

theorem col_mkNationalAggRow (p : Nat × Nat) (grp : List HcpRow)
    (c : SumCol) : (mkNationalAggRow p grp).col c = sumColRaw grp (rawName c) := by
  cases c <;> rfl

theorem mkAggRow_date (g : String) (p : Nat × Nat) (grp : List HcpRow) :
    (mkAggRow g p grp).date = p := rfl

theorem mkAggRow_dma (g : String) (p : Nat × Nat) (grp : List HcpRow) :
    (mkAggRow g p grp).dma = g := rfl

theorem mkNationalAggRow_date (p : Nat × Nat) (grp : List HcpRow) :
    (mkNationalAggRow p grp).date = p := rfl

/-- The final flag of the validator equals emptiness of its issues list. -/
theorem flag_eq_isEmpty_aux (b : Bool) (i : Issue) (rest : List Issue) :
    (if ((if b then [] else [i]) ++ rest).isEmpty then b else false)
      = ((if b then ([] : List Issue) else [i]) ++ rest).isEmpty := by
  cases b
  · simp
  · cases h : rest.isEmpty <;> simp [h]

theorem decDigitsAux_fuel :
    ∀ (f1 f2 n : Nat), n < f1 → n < f2 → decDigitsAux f1 n = decDigitsAux f2 n
  | 0, _, _, h1, _ => absurd h1 (by omega)
  | _ + 1, 0, _, _, h2 => absurd h2 (by omega)
  | f1 + 1, f2 + 1, n, h1, h2 => by
    by_cases h : n < 10
    · simp [decDigitsAux, h]
    · have hd : n / 10 < n := Nat.div_lt_self (by omega) (by omega)
      have ih := decDigitsAux_fuel f1 f2 (n / 10) (by omega) (by omega)
      simp only [decDigitsAux, if_neg h, ih]

theorem decDigits_lt {n : Nat} (h : n < 10) : decDigits n = [n] := by
  simp [decDigits, decDigitsAux, h]

theorem decDigits_ge {n : Nat} (h : 10 ≤ n) :
    decDigits n = decDigits (n / 10) ++ [n % 10] := by
  have h0 : ¬ n < 10 := by omega
  have hd : n / 10 < n := Nat.div_lt_self (by omega) (by omega)
  show decDigitsAux (n + 1) n = _
  simp only [decDigitsAux, if_neg h0]
  rw [decDigitsAux_fuel n (n / 10 + 1) (n / 10) (by omega) (by omega)]
  rfl

/-- The decimal digit string of a six-digit number. -/
theorem digits6 {m : Nat} (h1 : 100000 ≤ m) (h2 : m ≤ 999999) :
    decDigits m = [m / 100000, m / 10000 % 10, m / 1000 % 10, m / 100 % 10,
      m / 10 % 10, m % 10] := by
  have d1 : m / 10 / 10 = m / 100 := by rw [Nat.div_div_eq_div_mul]
  have d2 : m / 100 / 10 = m / 1000 := by rw [Nat.div_div_eq_div_mul]
  have d3 : m / 1000 / 10 = m / 10000 := by rw [Nat.div_div_eq_div_mul]
  have d4 : m / 10000 / 10 = m / 100000 := by rw [Nat.div_div_eq_div_mul]
  rw [decDigits_ge (by omega), decDigits_ge (by omega : 10 ≤ m / 10), d1,
    decDigits_ge (by omega : 10 ≤ m / 100), d2,
    decDigits_ge (by omega : 10 ≤ m / 1000), d3,
    decDigits_ge (by omega : 10 ≤ m / 10000), d4,
    decDigits_lt (by omega : m / 100000 < 10)]
  rfl

theorem parseMonth_valid_low {b : Nat} (hb1 : 1 ≤ b) (_hb2 : b ≤ 9) :
    parseMonth [0, b] = some (b, []) := by
  simp [parseMonth, hb1]

theorem parseMonth_valid_high {b : Nat} (hb : b ≤ 2) :
    parseMonth [1, b] = some (10 * 1 + b, []) := by
  simp [parseMonth, hb]

/-- Parse result of a six-digit string with a valid month part. -/
theorem strptime_ok_of_valid {m : Nat} (h1 : 100000 ≤ m) (h2 : m ≤ 999999)
    (hm1 : 1 ≤ m % 100) (hm2 : m % 100 ≤ 12) :
    strptimeYYYYMM (decDigits m) = .ok (m / 100, m % 100) := by
  rw [digits6 h1 h2]
  have hy : ((m / 100000 * 10 + m / 10000 % 10) * 10 + m / 1000 % 10) * 10
      + m / 100 % 10 = m / 100 := by omega
  by_cases hlow : m % 100 ≤ 9
  · have ha : m / 10 % 10 = 0 := by omega
    have hb : m % 10 = m % 100 := by omega
    rw [ha, hb]
    have hp := parseMonth_valid_low hm1 (by omega)
    simp only [strptimeYYYYMM, hp, hy]
  · have ha : m / 10 % 10 = 1 := by omega
    have hb : m % 10 = m % 100 - 10 := by omega
    rw [ha, hb]
    have hp := parseMonth_valid_high (b := m % 100 - 10) (by omega)
    simp only [strptimeYYYYMM, hp, hy]
    rw [show 10 * 1 + (m % 100 - 10) = m % 100 from by omega]

/-- Reduction of the conversion through a successful parse. -/
theorem transform_eq_of_strptime {m y mo : Nat}
    (h : strptimeYYYYMM (decDigits m) = .ok (y, mo)) :
    transform_month_to_date (m : Int) =
      (if inTimestampBounds y mo then .ok (y, mo)
       else .error "out of bounds nanosecond timestamp") := by
  unfold transform_month_to_date
  rw [if_neg (by omega : ¬ ((m : Int) < 0)), Int.toNat_natCast, h]

/-- Reduction of the conversion through a failing parse. -/
theorem transform_eq_of_strptime_error {m : Nat} {e : String}
    (h : strptimeYYYYMM (decDigits m) = .error e) :
    transform_month_to_date (m : Int) = .error e := by
  unfold transform_month_to_date
  rw [if_neg (by omega : ¬ ((m : Int) < 0)), Int.toNat_natCast, h]

/-- The plain plot loop succeeds when every referenced column exists. -/
theorem plotColsPlain_ok (t : DTable) (dateCol : String) (hd : dateCol ∈ t.cols) :
    ∀ (vc : List String), (∀ c ∈ vc, c ∈ t.cols) →
      plotColsPlain t dateCol vc = .ok ()
  | [], _ => rfl
  | c :: vc, h => by
    have hc : c ∈ t.cols := h c (by simp)
    simp only [plotColsPlain]
    rw [if_neg (not_not_intro hd), if_neg (not_not_intro hc)]
    exact plotColsPlain_ok t dateCol hd vc fun x hx => h x (by simp [hx])

/-! ### Claim theorems -/

/-- C8: `identify_mmm_columns` is deterministic and idempotent — classifying
the same column list twice yields identical role-to-column mappings — and
order-preserving: each role's list is a sublist of the input column list, so
its entries appear in input order. -/
theorem identify_mmm_columns_deterministic_order_preserving (cols : List String) :
    identify_mmm_columns cols = identify_mmm_columns cols ∧
    (identify_mmm_columns cols).date_columns.Sublist cols ∧
    (identify_mmm_columns cols).spend_columns.Sublist cols ∧
    (identify_mmm_columns cols).channel_columns.Sublist cols ∧
    (identify_mmm_columns cols).geographic_columns.Sublist cols ∧
    (identify_mmm_columns cols).business_metrics.Sublist cols ∧
    (identify_mmm_columns cols).hcp_identifiers.Sublist cols :=
  ⟨rfl, List.filter_sublist cols, List.filter_sublist cols, List.filter_sublist cols,
    List.filter_sublist cols, List.filter_sublist cols, List.filter_sublist cols⟩

/-- C1 counterexample: a table containing every required column but one
duplicated row gets `is_valid = false` — the advisory duplicate-row rule does
flip the validity flag, contrary to the claim. -/
theorem validate_advisory_issue_flips_validity_cex :
    (["a"] : List String).all (fun c => decide (c ∈ tdup.cols)) = true
    ∧ (validate_data_quality tdup ["a"] "date").is_valid = false
    ∧ (validate_data_quality tdup ["a"] "date").issues = [Issue.duplicateRows 1] := by
  have hres : validate_data_quality tdup ["a"] "date" =
      { is_valid := false, issues := [.duplicateRows 1], shape := (2, 1), duplicates := 1 } := by
    norm_num [validate_data_quality, highMissingCols, missingPct, pctGt10, nullCount,
      duplicateCount, dedupFirst, tdup, List.enum, List.enumFrom]
    decide
  exact ⟨by decide, by rw [hres], by rw [hres]⟩

/-- C1 (amended): the validity flag is false exactly when the issues list is
non-empty, and the issues list is empty iff no rule — the fatal
required-columns rule or any advisory rule (date dtype, more than 10% nulls,
duplicate rows) — fires; advisory issues therefore do flip `is_valid`
(loaders.py lines 182-183). -/
theorem validate_is_valid_characterization (t : VTable) (required : List String)
    (dc : String) :
    (validate_data_quality t required dc).is_valid
        = (validate_data_quality t required dc).issues.isEmpty
    ∧ ((validate_data_quality t required dc).issues = [] ↔
        ((∀ c ∈ required, c ∈ t.cols) ∧ (dc ∈ t.cols → dc ∈ t.datetimeCols)
          ∧ highMissingCols t = [] ∧ duplicateCount t = 0)) := by
  have hmiss : (required.filter (fun c => decide (c ∉ t.cols)) = [])
      ↔ ∀ c ∈ required, c ∈ t.cols := by
    rw [List.filter_eq_nil_iff]
    constructor
    · intro h c hc
      by_contra hnc
      exact h c hc (by simpa using hnc)
    · intro h c hc
      simp [h c hc]
  dsimp only [validate_data_quality]
  constructor
  · rw [List.append_assoc, List.append_assoc]
    exact flag_eq_isEmpty_aux _ _ _
  · rw [List.append_eq_nil, List.append_eq_nil, List.append_eq_nil]
    constructor
    · rintro ⟨⟨⟨e1, e2⟩, e3⟩, e4⟩
      refine ⟨?_, ?_, ?_, ?_⟩
      · by_cases hm2 : (required.filter (fun c => decide (c ∉ t.cols))).isEmpty
        · exact hmiss.1 (List.isEmpty_iff.1 hm2)
        · rw [if_neg hm2] at e1
          simp at e1
      · intro hdc
        by_contra hdt
        rw [if_pos ⟨hdc, hdt⟩] at e2
        simp at e2
      · by_cases hh : (highMissingCols t).isEmpty
        · exact List.isEmpty_iff.1 hh
        · rw [if_neg hh] at e3
          simp at e3
      · by_cases hd : duplicateCount t > 0
        · rw [if_pos hd] at e4
          simp at e4
        · omega
    · rintro ⟨h1, h2, h3, h4⟩
      have hm2 : (required.filter (fun c => decide (c ∉ t.cols))) = [] := hmiss.2 h1
      refine ⟨⟨⟨?_, ?_⟩, ?_⟩, ?_⟩
      · simp only [hm2]
        simp
      · rw [if_neg]
        rintro ⟨hdc, hdt⟩
        exact hdt (h2 hdc)
      · simp [h3]
      · simp [h4]

/-- C10: the validator is total: on a zero-row table it still returns a full
report — the `0 / 0` missing percentage is `NaN`, which fails the `> 10`
test, so the missing-value rule contributes nothing, duplicates are zero, and
the report consists of the shape summary plus only the column-presence and
date-dtype issues. -/
theorem validator_total_on_empty_table (t : VTable) (required : List String)
    (dc : String) (h : t.rows = []) :
    (validate_data_quality t required dc).shape = (0, t.cols.length)
    ∧ highMissingCols t = []
    ∧ duplicateCount t = 0
    ∧ (validate_data_quality t required dc).issues =
        (if (required.filter (fun c => decide (c ∉ t.cols))).isEmpty then []
         else [Issue.missingColumns (required.filter (fun c => decide (c ∉ t.cols)))])
        ++ (if dc ∈ t.cols ∧ dc ∉ t.datetimeCols then [Issue.dateNotDatetime dc] else []) := by
  have hhm : highMissingCols t = [] := by
    simp [highMissingCols, missingPct, pctGt10, h]
  have hdup : duplicateCount t = 0 := by
    simp [duplicateCount, h, dedupFirst]
  refine ⟨?_, hhm, hdup, ?_⟩
  · dsimp only [validate_data_quality]
    simp [h]
  · dsimp only [validate_data_quality]
    simp [hhm, hdup]

/-- C10 witness: the validator applied to a concrete empty table. -/
theorem validator_total_on_empty_table_witness :
    (validate_data_quality tempty ["date", "spend"] "date").shape = (0, tempty.cols.length)
    ∧ highMissingCols tempty = []
    ∧ duplicateCount tempty = 0
    ∧ (validate_data_quality tempty ["date", "spend"] "date").issues =
        (if ((["date", "spend"] : List String).filter (fun c => decide (c ∉ tempty.cols))).isEmpty then []
         else [Issue.missingColumns ((["date", "spend"] : List String).filter (fun c => decide (c ∉ tempty.cols)))])
        ++ (if "date" ∈ tempty.cols ∧ "date" ∉ tempty.datetimeCols
            then [Issue.dateNotDatetime "date"] else []) :=
  validator_total_on_empty_table tempty ["date", "spend"] "date" rfl

/-- C4: wide/long round-trip — for every wide aggregated table and every
(geography, period) group, the spend summed over the long-form channel rows
of that group equals the sum over the configured channels of the group's
`spend_<channel>` columns. -/
theorem wide_long_spend_round_trip (g : String) (p : Nat × Nat) :
    ∀ (w : List AggRow),
      (((create_channel_level_dma w).filter
          (fun r => decide (r.dma = g ∧ r.date = p))).map (fun r => r.spend)).sum
        = ((w.filter (fun r => decide (r.dma = g ∧ r.date = p))).map
            (fun r => (channels.map (fun c => r.spendOf c)).sum)).sum
  | [] => by simp [create_channel_level_dma]
  | a :: w => by
    have ih := wide_long_spend_round_trip g p w
    simp only [create_channel_level_dma] at ih ⊢
    rw [List.flatMap_cons, List.filter_append, List.map_append, List.sum_append, ih,
      filter_map_comm, List.filter_cons]
    by_cases hk : a.dma = g ∧ a.date = p
    · simp only [decide_eq_true hk, if_true, List.filter_true, List.map_map]
      rfl
    · simp [decide_eq_false hk]

/-- C3 counterexample: a table whose configured source column
`COST_paidsearch_hcp_google` is entirely absent makes the aggregation fail
with a `KeyError` instead of succeeding with a zero column. -/
theorem missing_source_column_fails_aggregation_cex :
    create_dma_aggregation t3 = .error "KeyError: missing aggregation column" := rfl

/-- C3 (amended): zero-filling happens only at the wide-to-long step, for
channel metrics that have no column in the wide aggregated schema
(impressions and clicks of meetings, teledetails, emails); a configured
source column absent from the input table instead fails the whole
aggregation with a `KeyError`. -/
theorem channel_zero_fill_and_missing_column_error :
    (∀ (w : List AggRow), ∀ r ∈ create_channel_level_dma w,
        r.channel = Channel.meetings ∨ r.channel = Channel.teledetails
          ∨ r.channel = Channel.emails →
        r.impressions = 0 ∧ r.clicks = 0)
    ∧ (∀ (t : HcpTable), "COST_paidsearch_hcp_google" ∉ t.cols →
        create_dma_aggregation t = .error "KeyError: missing aggregation column") := by
  constructor
  · intro w r hr hch
    rcases List.mem_flatMap.1 hr with ⟨row, -, hrc⟩
    rcases List.mem_map.1 hrc with ⟨c, -, rfl⟩
    rcases hch with h | h | h <;>
      · cases c <;> simp_all [AggRow.imprOf, AggRow.clicksOf]
  · intro t h
    rw [create_dma_aggregation, if_neg]
    intro hall
    exact h (by
      have := (List.all_eq_true.1 hall) "COST_paidsearch_hcp_google" (by simp [aggRawCols])
      simpa using this)

/-- C3 witness: the meetings row of a concrete wide table has zero
impressions and clicks, and the aggregation of the concrete table `t3`
missing a source column errors. -/
theorem channel_zero_fill_and_missing_column_error_witness :
    (w0MeetingsRow.impressions = 0 ∧ w0MeetingsRow.clicks = 0)
    ∧ create_dma_aggregation t3 = .error "KeyError: missing aggregation column" :=
  ⟨channel_zero_fill_and_missing_column_error.1 [w0] w0MeetingsRow (by decide)
      (Or.inl rfl),
   channel_zero_fill_and_missing_column_error.2 t3 (by decide)⟩

/-- C6 counterexample: a successful xkcd-styled dashboard chart call from the
module's seaborn-styled context ends in the matplotlib defaults, not the
prior context; a failing draw leaves the xkcd overlay installed. -/
theorem dashboard_xkcd_not_restored_cex :
    (create_time_series_plot (some t6) "spend_display_hcp" "501" true rcSeaborn).2 ≠ rcSeaborn
    ∧ (create_time_series_plot (some t6) "missing" "501" true rcSeaborn).2
        = applyXkcd rcSeaborn
    ∧ applyXkcd rcSeaborn ≠ rcSeaborn := by
  refine ⟨by decide, rfl, by decide⟩

/-- C6 (amended): `plot_time_series` (eda.py) scopes the xkcd overlay with a
context manager and restores the prior rendering context whether the draw
succeeds or raises; the dashboard's `create_time_series_plot` does not
restore it — a successful xkcd draw resets the context to the library
defaults, and a draw that raises leaves the xkcd overlay installed. -/
theorem xkcd_scoping_characterization :
    (∀ (t : DTable) (dc : String) (vc : List String) (ti : String) (x : Bool) (st : RC),
        (plot_time_series t dc vc ti x st).2 = st)
    ∧ (∀ (t : DTable) (ch dma : String) (st : RC),
        t.rows.isEmpty = false → "dma" ∈ t.cols →
        (t.rows.filter (fun r => decide (r.cells "dma" = some (.str dma)))).isEmpty = false →
        "month" ∈ t.cols → ch ∈ t.cols →
        (create_time_series_plot (some t) ch dma true st).2 = rcDefaults)
    ∧ (∀ (t : DTable) (ch dma : String) (st : RC),
        t.rows.isEmpty = false → "dma" ∈ t.cols →
        (t.rows.filter (fun r => decide (r.cells "dma" = some (.str dma)))).isEmpty = false →
        "month" ∈ t.cols → ch ∉ t.cols →
        (create_time_series_plot (some t) ch dma true st).2 = applyXkcd st) := by
  refine ⟨?_, ?_, ?_⟩
  · intro t dc vc ti x st
    cases x
    · cases h : plotColsPlain t dc vc <;> simp [plot_time_series, h]
    · cases h : plotColsXkcd t dc vc <;> simp [plot_time_series, h]
  · intro t ch dma st h1 h2 h3 h4 h5
    simp [create_time_series_plot, h1, h2, h3, h4, h5]
  · intro t ch dma st h1 h2 h3 h4 h5
    simp [create_time_series_plot, h1, h2, h3, h4, h5]

/-- C6 witness: the three behaviours at concrete inputs. -/
theorem xkcd_scoping_characterization_witness :
    (plot_time_series t6 "month" ["spend_display_hcp"] "T" true rcSeaborn).2 = rcSeaborn
    ∧ (create_time_series_plot (some t6) "spend_display_hcp" "501" true rcSeaborn).2
        = rcDefaults
    ∧ (create_time_series_plot (some t6) "missing" "501" true rcSeaborn).2
        = applyXkcd rcSeaborn :=
  ⟨xkcd_scoping_characterization.1 t6 "month" ["spend_display_hcp"] "T" true rcSeaborn,
   xkcd_scoping_characterization.2.1 t6 "spend_display_hcp" "501" rcSeaborn
     (by decide) (by decide) (by decide) (by decide) (by decide),
   xkcd_scoping_characterization.2.2 t6 "missing" "501" rcSeaborn
     (by decide) (by decide) (by decide) (by decide) (by decide)⟩

/-- C7 counterexample: a chart call whose selected channel column is absent
raises a `KeyError` instead of returning the `None` sentinel, and
`plot_time_series` on an empty frame returns a figure, not a sentinel. -/
theorem missing_column_raises_cex :
    (create_time_series_plot (some t6) "no_such_column" "501" false rcSeaborn).1
        = .error (.keyError "no_such_column")
    ∧ (plot_time_series t7e "date" ["spend"] "T" false rcSeaborn).1 = .ok { title := "T" } :=
  ⟨rfl, rfl⟩

/-- C7 (amended): the dashboard chart returns the `None` sentinel for absent
data, an empty frame, or an empty geography selection; but a missing column
raises a `KeyError` rather than returning the sentinel, and eda.py's
`plot_time_series` on an empty frame returns a figure in plain style and
raises an `IndexError` in xkcd style. -/
theorem no_data_sentinel_characterization :
    (∀ (ch dma : String) (x : Bool) (st : RC),
        create_time_series_plot none ch dma x st = (.ok none, st))
    ∧ (∀ (t : DTable) (ch dma : String) (x : Bool) (st : RC), t.rows.isEmpty = true →
        create_time_series_plot (some t) ch dma x st = (.ok none, st))
    ∧ (∀ (t : DTable) (ch dma : String) (x : Bool) (st : RC), "dma" ∈ t.cols →
        (t.rows.filter (fun r => decide (r.cells "dma" = some (.str dma)))).isEmpty = true →
        create_time_series_plot (some t) ch dma x st = (.ok none, st))
    ∧ (∀ (t : DTable) (ch dma : String) (x : Bool) (st : RC),
        t.rows.isEmpty = false → "dma" ∈ t.cols →
        (t.rows.filter (fun r => decide (r.cells "dma" = some (.str dma)))).isEmpty = false →
        "month" ∈ t.cols → ch ∉ t.cols →
        (create_time_series_plot (some t) ch dma x st).1 = .error (.keyError ch))
    ∧ (∀ (t : DTable) (dc : String) (vc : List String) (ti : String) (st : RC),
        t.rows = [] → dc ∈ t.cols → (∀ c ∈ vc, c ∈ t.cols) →
        (plot_time_series t dc vc ti false st).1 = .ok { title := ti })
    ∧ (∀ (t : DTable) (dc c : String) (vc : List String) (ti : String) (st : RC),
        t.rows = [] → dc ∈ t.cols → c ∈ t.cols →
        (plot_time_series t dc (c :: vc) ti true st).1 = .error .indexError) := by
  refine ⟨?_, ?_, ?_, ?_, ?_, ?_⟩
  · intro ch dma x st
    rfl
  · intro t ch dma x st h
    simp [create_time_series_plot, h]
  · intro t ch dma x st h1 h2
    by_cases he : t.rows.isEmpty <;>
      simp [create_time_series_plot, he, h1, h2]
  · intro t ch dma x st h1 h2 h3 h4 h5
    cases x <;> simp [create_time_series_plot, h1, h2, h3, h4, h5]
  · intro t dc vc ti st h1 h2 h3
    simp [plot_time_series, plotColsPlain_ok t dc h2 vc h3]
  · intro t dc c vc ti st h1 h2 h3
    have hmax : colMaxQ t c = none := by simp [colMaxQ, h1]
    simp [plot_time_series, plotColsXkcd, h2, h3, hmax]

/-- C7 witness: the sentinel and raising behaviours at concrete inputs. -/
theorem no_data_sentinel_characterization_witness :
    create_time_series_plot none "spend" "501" false rcSeaborn = (.ok none, rcSeaborn)
    ∧ create_time_series_plot (some t7e) "spend" "501" false rcSeaborn = (.ok none, rcSeaborn)
    ∧ create_time_series_plot (some t6) "spend_display_hcp" "999" false rcSeaborn
        = (.ok none, rcSeaborn)
    ∧ (create_time_series_plot (some t6) "missing" "501" false rcSeaborn).1
        = .error (.keyError "missing")
    ∧ (plot_time_series t7e "date" ["spend"] "T" false rcSeaborn).1 = .ok { title := "T" }
    ∧ (plot_time_series t7e "date" ["spend"] "T" true rcSeaborn).1 = .error .indexError := by
  refine ⟨no_data_sentinel_characterization.1 "spend" "501" false rcSeaborn,
    no_data_sentinel_characterization.2.1 t7e "spend" "501" false rcSeaborn rfl,
    no_data_sentinel_characterization.2.2.1 t6 "spend_display_hcp" "999" false rcSeaborn
      (by decide) (by decide),
    no_data_sentinel_characterization.2.2.2.1 t6 "missing" "501" false rcSeaborn
      (by decide) (by decide) (by decide) (by decide) (by decide),
    no_data_sentinel_characterization.2.2.2.2.1 t7e "date" ["spend"] "T" rcSeaborn
      rfl (by decide) (by decide),
    no_data_sentinel_characterization.2.2.2.2.2 t7e "date" "spend" [] "T" rcSeaborn
      rfl (by decide) (by decide)⟩

/-- C2 counterexample: with one HCP active in two DMAs in the same period,
the per-DMA `unique_hcps` values sum to 2 while the national row records 1 —
distinct counts are not additive across geographies. -/
theorem dma_sum_unique_hcps_ne_national_cex :
    (create_dma_aggregation t2).toOption.map
        (fun l => ((l.filter (fun r => decide (r.date = (2023, 1)))).map
          (fun r => r.unique_hcps)).sum) = some 2
    ∧ (create_national_aggregation t2).toOption.map
        (fun l => ((l.filter (fun r => decide (r.date = (2023, 1)))).map
          (fun r => r.unique_hcps)).sum) = some 1
    ∧ (create_dma_aggregation t2).toOption.map
        (fun l => ((l.filter (fun r => decide (r.date = (2023, 1)))).map
          (fun r => r.unique_hcps)).sum)
      ≠ (create_national_aggregation t2).toOption.map
        (fun l => ((l.filter (fun r => decide (r.date = (2023, 1)))).map
          (fun r => r.unique_hcps)).sum) := by
  refine ⟨rfl, rfl, by decide⟩

/-- C2 (amended): for every input table and fixed period, summing any of the
sixteen summed output columns of the DMA-level aggregation across all
geographies equals the national-level value for that period; the relation
does not extend to the distinct-count column `unique_hcps`. -/
theorem dma_national_sum_consistency (t : HcpTable) (d : List AggRow)
    (n : List NationalAggRow) (hd : create_dma_aggregation t = .ok d)
    (hn : create_national_aggregation t = .ok n) (c : SumCol) (p : Nat × Nat) :
    ((d.filter (fun r => decide (r.date = p))).map (fun r => r.col c)).sum
      = ((n.filter (fun r => decide (r.date = p))).map (fun r => r.col c)).sum := by
  simp only [create_dma_aggregation] at hd
  simp only [create_national_aggregation] at hn
  by_cases hcols : aggRawCols.all (fun c => decide (c ∈ t.cols)) = true
  case neg =>
    rw [if_neg hcols] at hd
    exact absurd hd (by simp)
  case pos =>
  rw [if_pos hcols] at hd
  rw [if_pos hcols] at hn
  injection hd with hd
  injection hn with hn
  subst hd
  subst hn
  rw [filter_map_comm, filter_map_comm, List.map_map, List.map_map]
  simp only [mkAggRow_date, mkNationalAggRow_date, Function.comp_def,
    col_mkAggRow, col_mkNationalAggRow, sumColRaw]
  have hG1 : ((dedupFirst (t.rows.map pairKey)).filter
      (fun a => decide (a.2 = p))).Nodup := (nodup_dedupFirst _).filter _
  have hG2 : ((dedupFirst (t.rows.map dateKey)).filter
      (fun a => decide (a = p))).Nodup := (nodup_dedupFirst _).filter _
  rw [sum_groups pairKey (fun r => (r.cell (rawName c)).getD 0) t.rows _ hG1,
    sum_groups dateKey (fun r => (r.cell (rawName c)).getD 0) t.rows _ hG2]
  have hL : t.rows.filter (fun r => memB (pairKey r)
        ((dedupFirst (t.rows.map pairKey)).filter (fun a => decide (a.2 = p))))
      = t.rows.filter (fun r => decide (r.date = p)) := by
    refine List.filter_congr fun r hr => ?_
    rw [Bool.eq_iff_iff, memB_iff]
    simp only [decide_eq_true_eq]
    constructor
    · intro hmem
      have h3 := of_decide_eq_true (List.mem_filter.1 hmem).2
      simpa [pairKey] using h3
    · intro hdate
      refine List.mem_filter.2
        ⟨mem_dedupFirst.2 (List.mem_map.2 ⟨r, hr, rfl⟩), ?_⟩
      exact decide_eq_true (show (pairKey r).2 = p from hdate)
  have hR : t.rows.filter (fun r => memB (dateKey r)
        ((dedupFirst (t.rows.map dateKey)).filter (fun a => decide (a = p))))
      = t.rows.filter (fun r => decide (r.date = p)) := by
    refine List.filter_congr fun r hr => ?_
    rw [Bool.eq_iff_iff, memB_iff]
    simp only [decide_eq_true_eq]
    constructor
    · intro hmem
      have h3 := of_decide_eq_true (List.mem_filter.1 hmem).2
      simpa [dateKey] using h3
    · intro hdate
      refine List.mem_filter.2
        ⟨mem_dedupFirst.2 (List.mem_map.2 ⟨r, hr, rfl⟩), ?_⟩
      exact decide_eq_true (show dateKey r = p from hdate)
  rw [hL, hR]

/-- C2 witness: the consistency equation at the concrete two-DMA table. -/
theorem dma_national_sum_consistency_witness :
    ((d2.filter (fun r => decide (r.date = (2023, 1)))).map
        (fun r => r.col SumCol.trx)).sum
      = ((n2.filter (fun r => decide (r.date = (2023, 1)))).map
          (fun r => r.col SumCol.trx)).sum :=
  dma_national_sum_consistency t2 d2 n2 rfl rfl SumCol.trx (2023, 1)

/-- C9: a null in a configured numeric column is treated as 0 by the group
sum — every aggregated value equals the sum of the non-null cells of its
group, with no null propagation. -/
theorem aggregation_null_as_zero (t : HcpTable) (d : List AggRow)
    (hd : create_dma_aggregation t = .ok d) (c : SumCol) (g : String)
    (p : Nat × Nat) :
    ((d.filter (fun r => decide ((r.dma, r.date) = (g, p)))).map
        (fun r => r.col c)).sum
      = ((t.rows.filter (fun r => decide (pairKey r = (g, p)))).filterMap
          (fun r => r.cell (rawName c))).sum := by
  simp only [create_dma_aggregation] at hd
  by_cases hcols : aggRawCols.all (fun c => decide (c ∈ t.cols)) = true
  case neg =>
    rw [if_neg hcols] at hd
    exact absurd hd (by simp)
  case pos =>
  rw [if_pos hcols] at hd
  injection hd with hd
  subst hd
  rw [filter_map_comm, List.map_map]
  simp only [mkAggRow_dma, mkAggRow_date, Prod.mk.eta, Function.comp_def, col_mkAggRow]
  rw [filter_eq_singleton_of_nodup (g, p) _ (nodup_dedupFirst _)]
  by_cases hmem : (g, p) ∈ dedupFirst (t.rows.map pairKey)
  · rw [if_pos hmem]
    simp only [List.map_cons, List.map_nil, List.sum_cons, List.sum_nil, add_zero]
    exact sumColRaw_eq_filterMap (rawName c) _
  · rw [if_neg hmem]
    have hnone : t.rows.filter (fun r => decide (pairKey r = (g, p))) = [] := by
      rw [List.filter_eq_nil_iff]
      intro r hr hdec
      exact hmem (mem_dedupFirst.2
        (List.mem_map.2 ⟨r, hr, of_decide_eq_true hdec⟩))
    simp [hnone]

/-- C9 witness: the spec scenario with a null spend cell — the aggregated
spend equals 50, the sum of the non-null values, not null. -/
theorem aggregation_null_as_zero_witness :
    (((d9.filter (fun r => decide ((r.dma, r.date) = ("501", (2023, 1))))).map
        (fun r => r.col SumCol.spendDisplayHcp)).sum
      = ((t9.rows.filter (fun r => decide (pairKey r = ("501", (2023, 1))))).filterMap
          (fun r => r.cell (rawName SumCol.spendDisplayHcp))).sum)
    ∧ ((t9.rows.filter (fun r => decide (pairKey r = ("501", (2023, 1))))).filterMap
        (fun r => r.cell (rawName SumCol.spendDisplayHcp))).sum = 50 :=
  ⟨aggregation_null_as_zero t9 d9 rfl SumCol.spendDisplayHcp "501" (2023, 1), by
    norm_num [t9, pairKey, rawName, List.filterMap_cons]⟩

/-- C5 counterexample: 999912 is a valid YYYYMM encoding inside the claimed
range, yet conversion fails (year 9999 exceeds the nanosecond-timestamp
range), and the 5-digit input 20231 is parsed successfully as 2023-01
(`%m` accepts a single digit) instead of failing as a non-6-digit input. -/
theorem transform_month_to_date_cex :
    transform_month_to_date 999912 = .error "out of bounds nanosecond timestamp"
    ∧ transform_month_to_date 20231 = .ok (2023, 1) := by
  refine ⟨?_, ?_⟩
  · show transform_month_to_date ((999912 : Nat) : Int) = _
    rw [transform_eq_of_strptime
      (strptime_ok_of_valid (by norm_num) (by norm_num) (by norm_num) (by norm_num))]
    norm_num [inTimestampBounds]
  · show transform_month_to_date ((20231 : Nat) : Int) = _
    have e1 : decDigits 20231 = decDigits 2023 ++ [1] := by
      have h := decDigits_ge (n := 20231) (by norm_num)
      norm_num at h
      exact h
    have e2 : decDigits 2023 = decDigits 202 ++ [3] := by
      have h := decDigits_ge (n := 2023) (by norm_num)
      norm_num at h
      exact h
    have e3 : decDigits 202 = decDigits 20 ++ [2] := by
      have h := decDigits_ge (n := 202) (by norm_num)
      norm_num at h
      exact h
    have e4 : decDigits 20 = decDigits 2 ++ [0] := by
      have h := decDigits_ge (n := 20) (by norm_num)
      norm_num at h
      exact h
    have e5 : decDigits 2 = [2] := decDigits_lt (by norm_num)
    have hd : decDigits 20231 = [2, 0, 2, 3, 1] := by
      rw [e1, e2, e3, e4, e5]
      rfl
    have hs : strptimeYYYYMM (decDigits 20231) = .ok (2023, 1) := by
      rw [hd]
      norm_num [strptimeYYYYMM, parseMonth]
    rw [transform_eq_of_strptime hs]
    norm_num [inTimestampBounds]

/-- C5 (amended): for YYYYMM encodings with a valid month, conversion yields
(year, month) = (first four digits, last two digits) exactly when the
first-of-month date fits the nanosecond-timestamp range, i.e. for encodings
in [190001, 226204]; valid encodings beyond 226204 fail with the
out-of-bounds error, and encodings whose month part is not 01..12 fail with
a parse error. -/
theorem transform_month_to_date_characterization :
    (∀ m : Nat, 190001 ≤ m → m ≤ 226204 → 1 ≤ m % 100 → m % 100 ≤ 12 →
        transform_month_to_date (m : Int) = .ok (m / 100, m % 100))
    ∧ (∀ m : Nat, 226205 ≤ m → m ≤ 999912 → 1 ≤ m % 100 → m % 100 ≤ 12 →
        transform_month_to_date (m : Int)
          = .error "out of bounds nanosecond timestamp")
    ∧ (∀ m : Nat, 190001 ≤ m → m ≤ 999912 → (m % 100 = 0 ∨ 13 ≤ m % 100) →
        ∃ e, transform_month_to_date (m : Int) = .error e) := by
  refine ⟨?_, ?_, ?_⟩
  · intro m h1 h2 h3 h4
    rw [transform_eq_of_strptime
      (strptime_ok_of_valid (by omega) (by omega) h3 h4)]
    rw [if_pos (show inTimestampBounds (m / 100) (m % 100) = true from by
      simp only [inTimestampBounds, decide_eq_true_eq]
      omega)]
  · intro m h1 h2 h3 h4
    rw [transform_eq_of_strptime
      (strptime_ok_of_valid (by omega) (by omega) h3 h4)]
    rw [if_neg (show ¬ inTimestampBounds (m / 100) (m % 100) = true from by
      simp only [inTimestampBounds, decide_eq_true_eq]
      omega)]
  · intro m h1 h2 hbad
    have h6 := digits6 (show 100000 ≤ m from by omega) (show m ≤ 999999 from by omega)
    rcases hbad with hz | hge
    · have ha : m / 10 % 10 = 0 := by omega
      have hb0 : m % 10 = 0 := by omega
      refine ⟨"time data does not match format", transform_eq_of_strptime_error ?_⟩
      rw [h6, ha, hb0]
      simp [strptimeYYYYMM, parseMonth]
    · by_cases h19 : m % 100 ≤ 19
      · have ha : m / 10 % 10 = 1 := by omega
        have hb3 : 3 ≤ m % 10 := by omega
        refine ⟨"unconverted data remains", transform_eq_of_strptime_error ?_⟩
        rw [h6, ha]
        have hp : parseMonth [1, m % 10] = some (1, [m % 10]) := by
          simp [parseMonth]
          omega
        simp [strptimeYYYYMM, hp]
      · have ha2 : 2 ≤ m / 10 % 10 := by omega
        have ha9 : m / 10 % 10 ≤ 9 := by omega
        refine ⟨"unconverted data remains", transform_eq_of_strptime_error ?_⟩
        rw [h6]
        have hp : parseMonth [m / 10 % 10, m % 10]
            = some (m / 10 % 10, [m % 10]) := by
          simp only [parseMonth]
          rw [if_neg (by omega), if_neg (by omega), if_pos (by omega)]
        simp [strptimeYYYYMM, hp]

/-- C5 witness: the three behaviours at concrete encodings. -/
theorem transform_month_to_date_characterization_witness :
    transform_month_to_date ((202301 : Nat) : Int) = .ok (202301 / 100, 202301 % 100)
    ∧ transform_month_to_date ((230001 : Nat) : Int)
        = .error "out of bounds nanosecond timestamp"
    ∧ (∃ e, transform_month_to_date ((202313 : Nat) : Int) = .error e) :=
  ⟨transform_month_to_date_characterization.1 202301 (by norm_num) (by norm_num)
      (by norm_num) (by norm_num),
   transform_month_to_date_characterization.2.1 230001 (by norm_num) (by norm_num)
      (by norm_num) (by norm_num),
   transform_month_to_date_characterization.2.2 202313 (by norm_num) (by norm_num)
      (by norm_num)⟩

/-- C1 witness: the characterization at a concrete table. -/
theorem validate_is_valid_characterization_witness :
    (validate_data_quality tdup ["a"] "date").is_valid
        = (validate_data_quality tdup ["a"] "date").issues.isEmpty
    ∧ ((validate_data_quality tdup ["a"] "date").issues = [] ↔
        ((∀ c ∈ (["a"] : List String), c ∈ tdup.cols)
          ∧ ("date" ∈ tdup.cols → "date" ∈ tdup.datetimeCols)
          ∧ highMissingCols tdup = [] ∧ duplicateCount tdup = 0)) :=
  validate_is_valid_characterization tdup ["a"] "date"

/-- C8 witness: the classifier property at a concrete column list. -/
theorem identify_mmm_columns_witness :
    identify_mmm_columns ["month", "SPEND_display_hcp", "DMA_Code"]
        = identify_mmm_columns ["month", "SPEND_display_hcp", "DMA_Code"] ∧
    (identify_mmm_columns ["month", "SPEND_display_hcp", "DMA_Code"]).date_columns.Sublist
        ["month", "SPEND_display_hcp", "DMA_Code"] ∧
    (identify_mmm_columns ["month", "SPEND_display_hcp", "DMA_Code"]).spend_columns.Sublist
        ["month", "SPEND_display_hcp", "DMA_Code"] ∧
    (identify_mmm_columns ["month", "SPEND_display_hcp", "DMA_Code"]).channel_columns.Sublist
        ["month", "SPEND_display_hcp", "DMA_Code"] ∧
    (identify_mmm_columns ["month", "SPEND_display_hcp", "DMA_Code"]).geographic_columns.Sublist
        ["month", "SPEND_display_hcp", "DMA_Code"] ∧
    (identify_mmm_columns ["month", "SPEND_display_hcp", "DMA_Code"]).business_metrics.Sublist
        ["month", "SPEND_display_hcp", "DMA_Code"] ∧
    (identify_mmm_columns ["month", "SPEND_display_hcp", "DMA_Code"]).hcp_identifiers.Sublist
        ["month", "SPEND_display_hcp", "DMA_Code"] :=
  identify_mmm_columns_deterministic_order_preserving
    ["month", "SPEND_display_hcp", "DMA_Code"]

/-- C4 witness: the round-trip equation at a concrete wide table. -/
theorem wide_long_spend_round_trip_witness :
    (((create_channel_level_dma [w0]).filter
        (fun r => decide (r.dma = "501" ∧ r.date = (2023, 1)))).map
          (fun r => r.spend)).sum
      = (([w0].filter (fun r => decide (r.dma = "501" ∧ r.date = (2023, 1)))).map
          (fun r => (channels.map (fun c => r.spendOf c)).sum)).sum :=
  wide_long_spend_round_trip "501" (2023, 1) [w0]

end MMM
